import Mathlib

set_option maxHeartbeats 1000000

/-! # Shallow embedding of the tarstall lifecycle engine

Definitions below translate `prog_manage.py`.  Helper functions of the
missing `config.py` are modelled from the spec where noted.  Profile files
are lists of lines, the managed tree maps program names to flat file
listings, and the results of external processes (git, wget, tar, the
post-upgrade script) are oracles collected in an `Env` record. -/

/-- The record of one installed program (spec section 3, written by
`prog_manage.finish_install`).  `git_installed` is the legacy key deleted by
the file-version-15 migration; a key that is absent from the persisted dict
is modelled as `Option.none`. -/
structure ProgramRecord where
  install_type : String
  git_installed : Option Bool
  desktops : List String
  post_upgrade_script : Option String
  update_url : Option String
  has_path : Bool
  binlinks : List String
  deriving Repr, DecidableEq

/-- The `options` mapping of the database (`prog_manage.get_default_db`).
Keys added by migrations 13/14/16 are modelled as always-present fields whose
per-key default stands in for an absent key. -/
structure Options where
  Verbose : Bool
  AutoInstall : Bool
  ShellFile : Option String
  SkipQuestions : Bool
  UpdateURLPrograms : Bool
  PressEnterKey : Bool
  WarnMissingDeps : Bool
  deriving Repr, DecidableEq

/-- The persisted database (`config.db` in its normal shape). -/
structure DB where
  file_version : Nat
  prog_internal_version : Int
  branch : String
  options : Options
  programs : List (String × ProgramRecord)
  deriving Repr, DecidableEq

/-- `config.db` as a value: a normal database, the sentinel manifest
`\x7b"refresh": True\x7d` written by `change_branch`, or the corrupt empty dict. -/
inductive DBVal where
  | db (d : DB)
  | refreshSentinel
  | broken
  deriving Repr, DecidableEq

/-- A directory listing as a flat list of files: (top-level component,
remaining path components, file content).  An entry with a nonempty rest
list witnesses a subdirectory named by its top component. -/
abbrev FDir := List (String × List String × String)

/-- The mutable world tarstall touches: the in-memory database (`config.db`),
the persisted copy on disk together with the log of every `config.write_db()`
call, the managed tree `~/.tarstall/bin`, the two tarstall profile files, the
desktop entries in `~/.local/share/applications`, and the process lock. -/
structure State where
  dbv : DBVal
  disk : DBVal
  diskLog : List DBVal
  bin : List (String × FDir)
  bashrc : List String
  fishrc : List String
  desktopFiles : List String
  locked : Bool
  deriving Repr, DecidableEq

/-- Oracle for everything outside the modelled state: which external tools
are installed, the results of external processes, the compiled-in
versions (`config.file_version`, `config.prog_internal_version`) and host
facts. -/
structure Env where
  file_version : Nat
  prog_internal_version : Int
  shell_file : Option String
  tools : List String
  hasRequests : Bool
  missingPyDeps : Bool
  tarstallExecExists : Bool
  copyOk : Bool
  username : String
  extracted : FDir
  gitExit : Int
  gitUpToDate : Bool
  cloneExit : Int
  wgetExit : Int
  script_exists : Bool
  scriptOSError : Bool
  scriptExit : Int
  onlineVersion : Int
  deriving Repr, DecidableEq

/-- Externally visible actions recorded by the update machinery. -/
inductive Event where
  | gitPull
  | wgetFetch
  | runScript
  | gitClone
  deriving Repr, DecidableEq

/-- Python dict lookup `db["programs"][p]`. -/
def progLookup (l : List (String × ProgramRecord)) (p : String) : Option ProgramRecord :=
  match l with
  | [] => Option.none
  | e :: t => if e.1 = p then some e.2 else progLookup t p

/-- Python dict item assignment `db["programs"][p] = r`: replaces in place,
appends when the key is new. -/
def progSet (l : List (String × ProgramRecord)) (p : String) (r : ProgramRecord) :
    List (String × ProgramRecord) :=
  match l with
  | [] => [(p, r)]
  | e :: t => if e.1 = p then (p, r) :: t else e :: progSet t p r

def DB.getProg (d : DB) (p : String) : Option ProgramRecord := progLookup d.programs p

def DB.setProg (d : DB) (p : String) (r : ProgramRecord) : DB :=
  { d with programs := progSet d.programs p r }

/-- Python membership test `p in db["programs"]`. -/
def DB.hasProg (d : DB) (p : String) : Bool := (progLookup d.programs p).isSome

/-- `config.write_db()`: persist the in-memory database and log the write. -/
def write_db (st : State) : State :=
  { st with disk := st.dbv, diskLog := st.diskLog ++ [st.dbv] }

/-- Modelled from the spec: `config.full` from the missing `config.py` --
normalize a user-supplied path by expanding the home directory. -/
def config_full (p : String) : String := p.replace ("~") ("/home/user")

/-- Python `str.startswith`, evaluated structurally on the character list. -/
def strStartsWith (s pre : String) : Bool := pre.data.isPrefixOf s.data

/-- Python `str.endswith`, evaluated structurally on the character list. -/
def strEndsWith (s post : String) : Bool := post.data.isSuffixOf s.data

/-- The characters after the last occurrence of `sep`, if any. -/
def afterLastChar (sep : Char) : List Char → Option (List Char)
  | [] => Option.none
  | c :: t =>
    match afterLastChar sep t with
    | some r => some r
    | Option.none => if c == sep then some t else Option.none

/-- Modelled from the spec: `config.extension` from the missing `config.py` --
the recognized archive extension of a filename (the extension table of spec
section 4.3), or the last dot-suffix otherwise. -/
def config_extension (program : String) : String :=
  if strEndsWith program (".tar.gz") then ".tar.gz"
  else if strEndsWith program (".tar.xz") then ".tar.xz"
  else if strEndsWith program (".zip") then ".zip"
  else if strEndsWith program (".7z") then ".7z"
  else if strEndsWith program (".rar") then ".rar"
  else if strEndsWith program (".git") then ".git"
  else
    match afterLastChar ('.') program.data with
    | some r => "." ++ String.mk r
    | Option.none => ""

/-- Modelled from the spec: `config.name` from the missing `config.py` --
derive the canonical program name from an archive/URL/directory path: the
last path component with the recognized extension stripped. -/
def config_name (program : String) : String :=
  let base :=
    match afterLastChar ('/') program.data with
    | some r => String.mk r
    | Option.none => program
  let ext := config_extension base
  if ext ≠ "" ∧ strEndsWith base ext then
    String.mk (base.data.take (base.data.length - ext.data.length))
  else base

/-- Modelled from the spec: `config.char_check` from the missing `config.py`
-- true when the name contains a character unsafe for shell/file use. -/
def char_check (name : String) : Bool :=
  name.data.any (fun c =>
    c == (' ') || c == Char.ofNat 39 || c == Char.ofNat 34 || c == ('#') || c == ('/'))

/-- The characters after the first pound sign, if any. -/
def afterFirstPound : List Char → Option (List Char)
  | [] => Option.none
  | c :: t => if c == ('#') then some t else afterFirstPound t

/-- Python `str.rstrip`, on a character list. -/
def trimRightChars (cs : List Char) : List Char :=
  (cs.reverse.dropWhile (fun c => c.isWhitespace)).reverse

/-- Modelled from the spec: the trailing tag of a profile line -- the text
after the first pound sign and its separating character (the parse
`l[l.find("#")+2:].rstrip()` used by `repair_db` and by
`config.remove_line` in mode "poundword"). -/
def tagOf (l : String) : Option String :=
  (afterFirstPound l.data).map (fun t => String.mk (trimRightChars (t.drop 1)))

/-- Modelled from the spec: `config.remove_line(program, file, "poundword")`
from the missing `config.py` -- drop every line whose trailing tag names the
program. -/
def remove_line_poundword (lines : List String) (program : String) : List String :=
  lines.filter (fun l => tagOf l != some program)

/-- Modelled from the spec: `config.add_line` from the missing `config.py` --
append the line if and only if an identical line is not already present
(idempotent). -/
def add_line (lines : List String) (line : String) : List String :=
  if lines.contains line then lines else lines ++ [line]

/-- Modelled from the spec: `config.replace_in_file` from the missing
`config.py` -- substring replacement across all lines of a profile file. -/
def replace_in_file (lines : List String) (old new : String) : List String :=
  lines.map (fun l => l.replace old new)

/-- The PATH line `pathify` writes to `~/.tarstall/.bashrc`, carrying the
trailing program-name tag. -/
def pathLineBash (p : String) : String :=
  "export PATH=$PATH:~/.tarstall/bin/" ++ p ++ " # " ++ p

/-- The PATH line `pathify` writes to `~/.tarstall/.fishrc`. -/
def pathLineFish (p : String) : String :=
  "set PATH $PATH ~/.tarstall/bin/" ++ p ++ " # " ++ p

/-- The fresh record `finish_install` writes for a newly installed program. -/
def defaultRecord (install_type : String) : ProgramRecord :=
  { install_type := install_type, git_installed := Option.none, desktops := [],
    post_upgrade_script := Option.none, update_url := Option.none,
    has_path := false, binlinks := [] }

/-- `prog_manage.get_default_db`.  (`WarnMissingDeps` is not in the Python
default dict; its absent key is modelled by its per-key default `true`.) -/
def get_default_db (env : Env) : DB :=
  { file_version := env.file_version
    prog_internal_version := env.prog_internal_version
    branch := "master"
    options :=
      { Verbose := false, AutoInstall := false, ShellFile := env.shell_file,
        SkipQuestions := false, UpdateURLPrograms := false, PressEnterKey := true,
        WarnMissingDeps := true }
    programs := [] }

/-- `os.path.isdir` on a top-level entry of a listing. -/
def isDirTop (dir : FDir) (name : String) : Bool :=
  dir.any (fun e => e.1 == name && !(e.2.1.isEmpty))

/-- The contents of the top-level directory `name` of a listing, one
level up. -/
def subdirContents (dir : FDir) (name : String) : FDir :=
  dir.filterMap (fun e =>
    if e.1 = name then
      match e.2.1 with
      | [] => Option.none
      | h :: t => some (h, t, e.2.2)
    else Option.none)

/-- `len(os.listdir()) == 1`: the listing is nonempty and every entry shares
one top-level name, which is returned. -/
def singleTop (dir : FDir) : Option String :=
  match dir with
  | [] => Option.none
  | e :: t => if t.all (fun x => x.1 == e.1) then some e.1 else Option.none

/-- The source directory chosen by `prog_manage.install` after extraction:
the folder-in-folder check, then the single-folder check. -/
def sourceOf (extracted : FDir) (name : String) : FDir :=
  if isDirTop extracted name then subdirContents extracted name
  else
    match singleTop extracted with
    | some d => if isDirTop extracted d then subdirContents extracted d else extracted
    | Option.none => extracted

/-- `rsync -a source/ dest/`: files from source overwrite same-path files of
dest, every other file of dest is kept. -/
def mergeFS (dest src : FDir) : FDir :=
  (dest.filter (fun e => !(src.any (fun s => s.1 == e.1 && s.2.1 == e.2.1)))) ++ src

/-- Lookup of the directory of a program in the managed tree. -/
def binGet (bin : List (String × FDir)) (name : String) : FDir :=
  match bin with
  | [] => []
  | e :: t => if e.1 = name then e.2 else binGet t name

/-- Create or replace the directory of a program in the managed tree. -/
def binSet (bin : List (String × FDir)) (name : String) (c : FDir) : List (String × FDir) :=
  match bin with
  | [] => [(name, c)]
  | e :: t => if e.1 = name then (name, c) :: t else e :: binSet t name c

/-- `rmtree` of the directory of a program in the managed tree. -/
def binDel (bin : List (String × FDir)) (name : String) : List (String × FDir) :=
  bin.filter (fun e => e.1 != name)

/-- `prog_manage.create_command`: the extension-to-tool table.  Verbosity
flags are display-only and omitted. -/
def create_command (file_extension program : String) (tools : List String) : String :=
  if file_extension = ".tar.gz" ∨ file_extension = ".tar.xz" then
    if tools.contains ("tar") then "tar xf " ++ program ++ " -C /tmp/tarstall-temp/" else "No tar"
  else if file_extension = ".zip" then
    if tools.contains ("unzip") then "unzip " ++ program ++ " -d /tmp/tarstall-temp/" else "No unzip"
  else if file_extension = ".7z" then
    if tools.contains ("7z") then "7z x " ++ program ++ " -o/tmp/tarstall-temp/" else "No 7z"
  else if file_extension = ".rar" then
    if tools.contains ("unrar") then "unrar x " ++ program ++ " /tmp/tarstall-temp/" else "No unrar"
  else "Bad Filetype"

/-- `prog_manage.finish_install`: record the program in the database and
persist.  (The record is created only after the managed directory exists.) -/
def finish_install (st : State) (program_internal_name install_type : String) : State × String :=
  match st.dbv with
  | DBVal.db d =>
    let d' := d.setProg program_internal_name (defaultRecord install_type)
    (write_db { st with dbv := DBVal.db d' }, "Installed")
  | _ => (st, "KeyError")

/-- `prog_manage.install`: extract an archive (the extraction result of the
external tool is `env.extracted`), collapse a redundant top-level directory,
then move (fresh) or rsync-merge (overwrite) the result into the managed
tree.  `reinstall` only affects progress display. -/
def install (st : State) (env : Env) (program : String) (overwrite : Bool)
    (_reinstall : Bool) : State × String :=
  if !(env.tools.contains ("rsync")) && overwrite then (st, "No rsync")
  else
    let program_internal_name := config_name program
    if char_check program_internal_name then (st, "Bad name")
    else
      let file_extension := config_extension program
      let command_to_go := create_command file_extension program env.tools
      if strStartsWith command_to_go ("No") ∨ command_to_go = "Bad Filetype" then (st, command_to_go)
      else
        let source := sourceOf env.extracted program_internal_name
        if overwrite then
          let st := { st with
            bin := binSet st.bin program_internal_name
              (mergeFS (binGet st.bin program_internal_name) source) }
          (st, "Installed")
        else
          let st := { st with bin := binSet st.bin program_internal_name source }
          finish_install st program_internal_name ("default")

/-- `prog_manage.uninstall`: remove the managed directory, strip tagged lines
from `~/.tarstall/.bashrc` (and only from that file), remove the recorded
desktop entries, then delete the manifest record and persist. -/
def uninstall (st : State) (program : String) : State × String :=
  match st.dbv with
  | DBVal.db d =>
    if !(d.hasProg program) then (st, "Not installed")
    else
      let r := (d.getProg program).getD (defaultRecord ("default"))
      let st := { st with bin := binDel st.bin program }
      let st := { st with bashrc := remove_line_poundword st.bashrc program }
      let st := { st with desktopFiles := st.desktopFiles.filter (fun f => !(r.desktops.contains f)) }
      let d' := { d with programs := d.programs.filter (fun e => e.1 != program) }
      (write_db { st with dbv := DBVal.db d' }, "Success")
  | _ => (st, "KeyError")

/-- `prog_manage.pre_install`: the overwrite decision table on a name
collision.  The `config.exists` check on the archive path is supplied as
`program_exists`. -/
def pre_install (st : State) (env : Env) (program : String) (program_exists : Bool)
    (overwrite : Option Bool) : State × String :=
  if !program_exists then (st, "Bad file")
  else
    match st.dbv with
    | DBVal.db d =>
      let program_internal_name := config_name program
      if d.hasProg program_internal_name then
        match overwrite with
        | Option.none => (st, "Application exists")
        | some false =>
          let u := uninstall st program_internal_name
          install u.1 env program false true
        | some true => install st env program true true
      else install st env program false false
    | _ => (st, "KeyError")

/-- `prog_manage.pathify`: wire a program into PATH through both tarstall
profile files, then set `has_path` and persist. -/
def pathify (st : State) (program_internal_name : String) : State × String :=
  match st.dbv with
  | DBVal.db d =>
    match d.getProg program_internal_name with
    | some r =>
      if r.has_path then (st, "Already there")
      else
        let st := { st with bashrc := add_line st.bashrc (pathLineBash program_internal_name) }
        let st := { st with fishrc := add_line st.fishrc (pathLineFish program_internal_name) }
        let d' := d.setProg program_internal_name { r with has_path := true }
        (write_db { st with dbv := DBVal.db d' }, "Complete")
    | Option.none => (st, "KeyError")
  | _ => (st, "KeyError")

/-- `prog_manage.remove_paths_and_binlinks`: note that unlike `uninstall`
this helper strips tagged lines from both profile files. -/
def remove_paths_and_binlinks (st : State) (program : String) : State × String :=
  match st.dbv with
  | DBVal.db d =>
    match d.getProg program with
    | some r =>
      if !r.has_path && r.binlinks.isEmpty then (st, "None exist")
      else
        let st := { st with bashrc := remove_line_poundword st.bashrc program }
        let st := { st with fishrc := remove_line_poundword st.fishrc program }
        let d' := d.setProg program { r with has_path := false, binlinks := [] }
        (write_db { st with dbv := DBVal.db d' }, "Complete")
    | Option.none => (st, "KeyError")
  | _ => (st, "KeyError")

/-- Result of `prog_manage.rename`: Python `None` on a name collision, the
new name on success; a missing program raises `KeyError`. -/
inductive RenameResult where
  | keyError
  | collision
  | renamed (new_name : String)
  deriving Repr, DecidableEq

/-- A single-quote character, for the binlink line patterns. -/
def squote : String := String.mk [Char.ofNat 39]

/-- `prog_manage.rename`.  Desktop-file contents are not modelled; the
single-file desktop move renames the recorded desktop file. -/
def rename (st : State) (program new_name : String) : State × RenameResult :=
  match st.dbv with
  | DBVal.db d =>
    match d.getProg program with
    | Option.none => (st, RenameResult.keyError)
    | some r =>
      let is_single := r.install_type == "single"
      if d.hasProg new_name then (st, RenameResult.collision)
      else
        let st :=
          if is_single && !(r.desktops.isEmpty) then
            { st with desktopFiles := st.desktopFiles.map (fun f =>
                if f = program ++ "-" ++ program then new_name ++ "-" ++ new_name else f) }
          else st
        let d' := { d with
          programs := (d.programs.filter (fun e => e.1 != program)) ++ [(new_name, r)] }
        let st := { st with bashrc := (replace_in_file st.bashrc
          ("export PATH=$PATH:~/.tarstall/bin/" ++ program)
          ("export PATH=$PATH:~/.tarstall/bin/" ++ new_name)) }
        let st := { st with fishrc := (replace_in_file st.fishrc
          ("set PATH $PATH ~/.tarstall/bin/" ++ program ++ " # " ++ program)
          ("set PATH $PATH ~/.tarstall/bin/" ++ new_name ++ " # " ++ new_name)) }
        let st := { st with bashrc := (replace_in_file st.bashrc
          (squote ++ "cd " ++ config_full ("~/.tarstall/bin/" ++ program))
          (squote ++ "cd " ++ config_full ("~/.tarstall/bin/" ++ new_name))) }
        let st := { st with fishrc := (replace_in_file st.fishrc
          (";cd " ++ config_full ("~/.tarstall/bin/" ++ program) ++ "/;./")
          (";cd " ++ config_full ("~/.tarstall/bin/" ++ new_name) ++ "/;./")) }
        let st :=
          if is_single then
            let st := { st with bashrc := replace_in_file st.bashrc ("./" ++ program) ("./" ++ new_name) }
            let st := { st with bashrc := replace_in_file st.bashrc ("alias " ++ program) ("alias " ++ new_name) }
            let st := { st with fishrc := replace_in_file st.fishrc ("./" ++ program) ("./" ++ new_name) }
            { st with fishrc := replace_in_file st.fishrc ("function " ++ program) ("function " ++ new_name) }
          else st
        let st := { st with bashrc := replace_in_file st.bashrc ("# " ++ program) ("# " ++ new_name) }
        let st := { st with fishrc := replace_in_file st.fishrc ("# " ++ program) ("# " ++ new_name) }
        let st := { st with bin := binSet (binDel st.bin program) new_name (binGet st.bin program) }
        let st := write_db { st with dbv := DBVal.db d' }
        let st :=
          if is_single then
            { st with bin := binSet st.bin new_name ((binGet st.bin new_name).map (fun f =>
                if f.1 = program ∧ f.2.1 = [] then (new_name, ([] : List String), f.2.2) else f)) }
          else st
        (st, RenameResult.renamed new_name)
  | _ => (st, RenameResult.keyError)

/-- `prog_manage.update_git_program`: `git pull` inside the managed
directory; output parsing is modelled by the `env` oracles. -/
def update_git_program (env : Env) : String × List Event :=
  if !(env.tools.contains ("git")) then ("No git", [])
  else
    if env.gitExit ≠ 0 then ("Error updating", [Event.gitPull])
    else if env.gitUpToDate then ("No update", [Event.gitPull])
    else ("Success", [Event.gitPull])

/-- `prog_manage.wget_program`: download the recorded archive and reinstall
it over the program with `pre_install(..., True)`.  The downloaded archive
exists when wget succeeded, hence `program_exists := true` for the inner
`pre_install` call. -/
def wget_program (st : State) (env : Env) (program : String) : State × String × List Event :=
  if !(env.tools.contains ("wget")) then (st, "No wget", [])
  else
    if env.wgetExit ≠ 0 then (st, "Wget error", [Event.wgetFetch])
    else
      let u := pre_install st env ("/tmp/tarstall-temp2/" ++ program ++ ".tar.gz") true (some true)
      if u.2 ≠ "Installed" then (u.1, "Install error", [Event.wgetFetch])
      else (u.1, "Success", [Event.wgetFetch])

/-- The post-upgrade-script block at the end of `prog_manage.update_program`:
`call(script)` may raise `OSError`, a nonzero exit is "Script error". -/
def run_post_script (st : State) (env : Env) (evs : List Event) : State × String × List Event :=
  let evs := evs ++ [Event.runScript]
  if env.scriptOSError then (st, "OSError", evs)
  else if env.scriptExit ≠ 0 then (st, "Script error", evs)
  else (st, "Success", evs)

/-- `prog_manage.update_program`: the per-program update dispatch over the
three sources (git remote, archive `update_url`, post-upgrade script). -/
def update_program (st : State) (env : Env) (program : String) : State × String × List Event :=
  match st.dbv with
  | DBVal.db d =>
    match d.getProg program with
    | Option.none => (st, "KeyError", [])
    | some r =>
      if r.post_upgrade_script.isSome && !env.script_exists then
        let d' := d.setProg program { r with post_upgrade_script := Option.none }
        (write_db { st with dbv := DBVal.db d' }, "No script", [])
      else
        if r.install_type = "git" then
          let u := update_git_program env
          if u.1 ≠ "Success" ∧ u.1 ≠ "No update" then (st, u.1, u.2)
          else if r.post_upgrade_script = Option.none then (st, u.1, u.2)
          else if u.1 = "No update" then (st, u.1, u.2)
          else run_post_script st env u.2
        else if r.update_url.isSome then
          let w := wget_program st env program
          if w.2.1 ≠ "Success" then (w.1, w.2.1, w.2.2)
          else if r.post_upgrade_script = Option.none then (w.1, w.2.1, w.2.2)
          else run_post_script w.1 env w.2.2
        else if r.post_upgrade_script.isSome then
          run_post_script st env []
        else (st, "Does not update", [])
  | _ => (st, "KeyError", [])

/-- `prog_manage.update`: tarstall self-update.  The engine its own installed
files are outside the modelled state; the clone of the new version is the
`Event.gitClone` event. -/
def update (st : State) (env : Env) (force_update : Bool) : State × String × List Event :=
  if !env.hasRequests && !force_update then (st, "No requests", [])
  else if !(env.tools.contains ("git")) then (st, "No git", [])
  else
    match st.dbv with
    | DBVal.db d =>
      let prog_version_internal := d.prog_internal_version
      let final_version := env.onlineVersion
      if !force_update && final_version = -1 then (st, "No requests", [])
      else if !force_update && final_version = -2 then (st, "No internet", [])
      else if force_update ∨ final_version > prog_version_internal then
        if env.cloneExit ≠ 0 then (st, "Failed", [Event.gitClone])
        else
          let st :=
            if !force_update then
              write_db { st with dbv := DBVal.db { d with prog_internal_version := final_version } }
            else st
          (st, "Updated", [Event.gitClone])
      else if final_version < prog_version_internal then (st, "Newer version", [])
      else (st, "No update", [])
    | _ => (st, "KeyError", [])

/-- `prog_manage.change_branch`.  On `master` with `reset` the code forces a
self-update, deletes every recorded desktop entry, writes the sentinel
manifest and releases the lock, deferring the rest of the reset to the next
startup. -/
def change_branch (st : State) (env : Env) (branch : String) (reset : Bool) : State × String :=
  let reset := if branch == "master" && !(env.tools.contains ("git")) then false else reset
  if !(branch == "master" || branch == "beta") then (st, "Bad branch")
  else
    match st.dbv with
    | DBVal.db d =>
      let d := { d with branch := branch }
      let st := write_db { st with dbv := DBVal.db d }
      if branch == "beta" then
        let u := update st env false
        (u.1, "Success")
      else
        if reset then
          let u := update st env true
          let st := u.1
          let st := { st with desktopFiles := st.desktopFiles.filter (fun f =>
            !((d.programs.flatMap (fun e => e.2.desktops)).contains f)) }
          let st := write_db { st with dbv := DBVal.refreshSentinel }
          let st := { st with locked := false }
          (st, "Reset")
        else (st, "Waiting")
    | _ => (st, "KeyError")

/-- One schema step of the lingering-upgrades chain in
`prog_manage.tarstall_startup`, keyed by the stored file version. -/
def migration_step (file_version : Nat) (d : DB) : DB :=
  if file_version = 11 then
    { d with programs := d.programs.map (fun e => (e.1, { e.2 with update_url := Option.none })) }
  else if file_version = 12 then
    { d with programs := d.programs.map (fun e => (e.1, { e.2 with has_path := false, binlinks := [] })) }
  else if file_version = 13 then
    { d with options := { d.options with UpdateURLPrograms := false } }
  else if file_version = 14 then
    { d with options := { d.options with PressEnterKey := true } }
  else if file_version = 15 then
    { d with programs := d.programs.map (fun e => (e.1,
      { e.2 with install_type := if e.2.git_installed = some true then "git" else "default",
                 git_installed := Option.none })) }
  else if file_version = 16 then
    { d with options := { d.options with WarnMissingDeps := true } }
  else d

theorem migration_step_file_version (v : Nat) (d : DB) :
    (migration_step v d).file_version = d.file_version := by
  unfold migration_step
  split_ifs <;> rfl

/-- One iteration of the migration loop: apply the step for the stored
version, then advance the version counter (the manifest is persisted right
after, see `migration_loop`). -/
def migrate_once (d : DB) : DB :=
  let d' := migration_step d.file_version d
  { d' with file_version := d'.file_version + 1 }

theorem migrate_once_file_version (d : DB) :
    (migrate_once d).file_version = d.file_version + 1 := by
  simp [migrate_once, migration_step_file_version]

/-- The `while config.get_version('file_version') > file_version` loop of
`tarstall_startup`: returns the final database and the list of databases
passed to `config.write_db()`, one per step. -/
def migration_loop (target : Nat) (d : DB) : DB × List DB :=
  if _h : d.file_version < target then
    let d' := migrate_once d
    let r := migration_loop target d'
    (r.1, d' :: r.2)
  else (d, [])
termination_by target - d.file_version
decreasing_by
  simp only [migrate_once_file_version]
  omega

/-- `prog_manage.first_time_setup`.  The copies of the files of the engine itself
are outside the model; their failure is `env.copyOk = false`. -/
def first_time_setup (st : State) (env : Env) : State × String :=
  if env.tarstallExecExists then (st, "Already installed")
  else
    let st := { st with bin := [], bashrc := [], fishrc := [] }
    let st := write_db { st with dbv := DBVal.db (get_default_db env) }
    if !env.copyOk then (st, "Bad copy")
    else
      let to_return := if env.shell_file = Option.none then "Unsupported shell" else "Success"
      let st := { st with
        bashrc := add_line st.bashrc ("export PATH=$PATH:" ++ config_full ("~/.tarstall/tarstall_execs")),
        fishrc := add_line st.fishrc ("set PATH $PATH " ++ config_full ("~/.tarstall/tarstall_execs")) }
      ({ st with locked := false }, to_return)

/-- `prog_manage.tarstall_startup`: lock handling, the sentinel (downgrade)
check, first-time setup, the corrupt-database check, the migration loop with
a persist after every step, the old-prog-version check, optional auto-update
and the root check. -/
def tarstall_startup (st : State) (env : Env) (start_fts del_lock force_fix : Bool) :
    State × String :=
  let final_status := if env.missingPyDeps then "Missing Deps" else "Good"
  if st.locked then
    if del_lock then ({ st with locked := false }, "Unlocked") else (st, "Locked")
  else
    let st := { st with locked := true }
    let st :=
      if st.dbv = DBVal.refreshSentinel then
        let st := write_db { st with dbv := DBVal.db (get_default_db env) }
        let st := write_db st
        { st with bin := [] }
      else st
    if start_fts then first_time_setup st env
    else if !env.tarstallExecExists then (st, "Not installed")
    else if st.dbv = DBVal.broken && !force_fix then (st, "DB Broken")
    else
      match st.dbv with
      | DBVal.db d =>
        let r := migration_loop env.file_version d
        let st := { st with dbv := DBVal.db r.1,
                            disk := if r.2.isEmpty then st.disk else DBVal.db r.1,
                            diskLog := st.diskLog ++ r.2.map DBVal.db }
        if r.1.prog_internal_version = 1 then (st, "Old")
        else
          let st := if r.1.options.AutoInstall then (update st env false).1 else st
          if env.username = "root" then (st, "Root")
          else (st, final_status)
      | _ => (st, "KeyError")

/-! ## Claim theorems -/

theorem migration_loop_stop (target : Nat) (d : DB) (h : ¬ d.file_version < target) :
    migration_loop target d = (d, []) := by
  unfold migration_loop
  simp [h]

theorem migration_loop_go (target : Nat) (d : DB) (h : d.file_version < target) :
    migration_loop target d =
      ((migration_loop target (migrate_once d)).1,
        migrate_once d :: (migration_loop target (migrate_once d)).2) := by
  conv_lhs => unfold migration_loop
  simp [h]

theorem migration_loop_fst_go (target : Nat) (d : DB) (h : d.file_version < target) :
    (migration_loop target d).1 = (migration_loop target (migrate_once d)).1 := by
  rw [migration_loop_go target d h]

theorem migration_loop_snd_go (target : Nat) (d : DB) (h : d.file_version < target) :
    (migration_loop target d).2 =
      migrate_once d :: (migration_loop target (migrate_once d)).2 := by
  rw [migration_loop_go target d h]

/-- C1: the migration loop of `tarstall_startup` applies the schema steps
strictly in increasing order, one version at a time (every persisted
database in the write log is `migrate_once` of its predecessor, with the
version counter advanced by exactly one after the record mutations of the step),
and resuming the loop from any persisted intermediate database -- or from
the initial one -- produces the same final manifest as the uninterrupted
run. -/
theorem migration_loop_resumable (target : Nat) (d : DB) :
    List.Chain' (fun a b => b = migrate_once a ∧ b.file_version = a.file_version + 1)
      (d :: (migration_loop target d).2)
  ∧ ∀ e ∈ d :: (migration_loop target d).2,
      (migration_loop target e).1 = (migration_loop target d).1 := by
  generalize hn : target - d.file_version = n
  induction n generalizing d with
  | zero =>
    have h : ¬ d.file_version < target := by omega
    rw [migration_loop_stop target d h]
    refine ⟨by simp, ?_⟩
    intro e he
    simp only [List.mem_singleton] at he
    subst he
    rw [migration_loop_stop target _ h]
  | succ n ih =>
    by_cases h : d.file_version < target
    · have hn' : target - (migrate_once d).file_version = n := by
        rw [migrate_once_file_version]
        omega
      obtain ⟨ihc, ihr⟩ := ih (migrate_once d) hn'
      refine ⟨?_, ?_⟩
      · rw [migration_loop_snd_go target d h]
        exact List.chain'_cons.2 ⟨⟨rfl, migrate_once_file_version d⟩, ihc⟩
      · intro e he
        rw [migration_loop_snd_go target d h] at he
        rcases List.mem_cons.1 he with rfl | he'
        · rfl
        · rw [ihr e he', migration_loop_fst_go target d h]
    · have h0 : ¬ d.file_version < target := h
      rw [migration_loop_stop target d h0]
      refine ⟨by simp, ?_⟩
      intro e he
      simp only [List.mem_singleton] at he
      subst he
      rw [migration_loop_stop target _ h0]

theorem progLookup_progSet_self (l : List (String × ProgramRecord)) (p : String)
    (r : ProgramRecord) : progLookup (progSet l p r) p = some r := by
  induction l with
  | nil => simp [progSet, progLookup]
  | cons e t ih =>
    by_cases h : e.1 = p
    · simp [progSet, progLookup, h]
    · simp [progSet, progLookup, h, ih]

/-- Fixture options record for the concrete examples. -/
def exOpts : Options :=
  { Verbose := false, AutoInstall := false, ShellFile := some ("/home/user/.bashrc"),
    SkipQuestions := false, UpdateURLPrograms := false, PressEnterKey := true,
    WarnMissingDeps := true }

/-- C5: renaming a program to a target name that already has a manifest entry
fails with the collision result (Python `None`, the `NameCollision` of the spec)
and returns the state completely unchanged: directory, manifest entry,
profile lines and desktop entries are untouched. -/
theorem rename_collision_no_mutation (st : State) (d : DB) (program new_name : String)
    (hdb : st.dbv = DBVal.db d) (hp : d.hasProg program = true)
    (hn : d.hasProg new_name = true) :
    rename st program new_name = (st, RenameResult.collision) := by
  unfold DB.hasProg at hp hn
  obtain ⟨r, hr⟩ := Option.isSome_iff_exists.1 hp
  obtain ⟨r2, hr2⟩ := Option.isSome_iff_exists.1 hn
  simp [rename, hdb, DB.getProg, hr, DB.hasProg, hr2]

def exDB5 : DB :=
  { file_version := 17, prog_internal_version := 2, branch := "master", options := exOpts,
    programs := [("foo", defaultRecord ("default")), ("bar", defaultRecord ("default"))] }

def exSt5 : State :=
  { dbv := DBVal.db exDB5, disk := DBVal.db exDB5, diskLog := [],
    bin := [("foo", []), ("bar", [])], bashrc := [], fishrc := [],
    desktopFiles := [], locked := true }

theorem rename_collision_no_mutation_witness :
    rename exSt5 ("foo") ("bar") = (exSt5, RenameResult.collision) :=
  rename_collision_no_mutation exSt5 exDB5 ("foo") ("bar") rfl rfl rfl

/-- C10: when the recorded post-upgrade script of a program no longer exists on
disk, `update_program` clears the field to `None` in the manifest, persists
the manifest, and returns "No script". -/
theorem update_program_missing_script (st : State) (env : Env) (d : DB) (r : ProgramRecord)
    (program s : String) (hdb : st.dbv = DBVal.db d) (hr : d.getProg program = some r)
    (hs : r.post_upgrade_script = some s) (hex : env.script_exists = false) :
    (update_program st env program).2.1 = "No script"
  ∧ (update_program st env program).1.dbv
      = DBVal.db (d.setProg program { r with post_upgrade_script := Option.none })
  ∧ (d.setProg program { r with post_upgrade_script := Option.none }).getProg program
      = some { r with post_upgrade_script := Option.none }
  ∧ (update_program st env program).1.disk = (update_program st env program).1.dbv := by
  unfold DB.getProg at hr
  simp [update_program, hdb, hr, hs, hex, write_db, DB.getProg, DB.setProg,
    progLookup_progSet_self]

def exRec10 : ProgramRecord :=
  { defaultRecord ("default") with post_upgrade_script := some ("/home/user/up.sh") }

def exDB10 : DB :=
  { file_version := 17, prog_internal_version := 2, branch := "master", options := exOpts,
    programs := [("prog", exRec10)] }

def exSt10 : State :=
  { dbv := DBVal.db exDB10, disk := DBVal.db exDB10, diskLog := [],
    bin := [("prog", [])], bashrc := [], fishrc := [], desktopFiles := [], locked := true }

def exEnv10 : Env :=
  { file_version := 17, prog_internal_version := 2, shell_file := some ("/home/user/.bashrc"),
    tools := ["git", "wget", "rsync", "tar"], hasRequests := true, missingPyDeps := false,
    tarstallExecExists := true, copyOk := true, username := "user", extracted := [],
    gitExit := 0, gitUpToDate := false, cloneExit := 0, wgetExit := 0,
    script_exists := false, scriptOSError := false, scriptExit := 0, onlineVersion := 2 }

theorem update_program_missing_script_witness :
    (update_program exSt10 exEnv10 ("prog")).2.1 = "No script"
  ∧ (update_program exSt10 exEnv10 ("prog")).1.dbv
      = DBVal.db (exDB10.setProg ("prog") { exRec10 with post_upgrade_script := Option.none })
  ∧ (exDB10.setProg ("prog") { exRec10 with post_upgrade_script := Option.none }).getProg ("prog")
      = some { exRec10 with post_upgrade_script := Option.none }
  ∧ (update_program exSt10 exEnv10 ("prog")).1.disk
      = (update_program exSt10 exEnv10 ("prog")).1.dbv :=
  update_program_missing_script exSt10 exEnv10 exDB10 exRec10 ("prog") ("/home/user/up.sh")
    rfl rfl rfl rfl

/-- C9: for a program with `has_path = false` and no PATH line yet present,
`pathify` appends exactly one tagged PATH line to each profile file and sets
`has_path`; a second `pathify` returns the already-present status ("Already
there") and changes nothing, so each profile holds exactly one PATH line
tagged for the program. -/
theorem pathify_idempotent (st : State) (d : DB) (r : ProgramRecord) (p : String)
    (hdb : st.dbv = DBVal.db d) (hr : d.getProg p = some r) (hpath : r.has_path = false)
    (hb : st.bashrc.count (pathLineBash p) = 0)
    (hf : st.fishrc.count (pathLineFish p) = 0) :
    (pathify st p).2 = "Complete"
  ∧ (pathify st p).1.bashrc.count (pathLineBash p) = 1
  ∧ (pathify st p).1.fishrc.count (pathLineFish p) = 1
  ∧ pathify (pathify st p).1 p = ((pathify st p).1, "Already there") := by
  unfold DB.getProg at hr
  have hbmem : pathLineBash p ∉ st.bashrc := List.count_eq_zero.1 hb
  have hfmem : pathLineFish p ∉ st.fishrc := List.count_eq_zero.1 hf
  have hbc : st.bashrc.contains (pathLineBash p) = false := by
    simpa using hbmem
  have hfc : st.fishrc.contains (pathLineFish p) = false := by
    simpa using hfmem
  have h1 : pathify st p =
      (write_db { st with
        bashrc := st.bashrc ++ [pathLineBash p],
        fishrc := st.fishrc ++ [pathLineFish p],
        dbv := DBVal.db (d.setProg p { r with has_path := true }) }, "Complete") := by
    simp [pathify, hdb, DB.getProg, hr, hpath, add_line, hbc, hfc, hbmem, hfmem]
  rw [h1]
  refine ⟨rfl, ?_, ?_, ?_⟩
  · simp [write_db, List.count_append, hb]
  · simp [write_db, List.count_append, hf]
  · simp [pathify, write_db, DB.getProg, DB.setProg, progLookup_progSet_self]

def exRec9 : ProgramRecord := defaultRecord ("default")

def exDB9 : DB :=
  { file_version := 17, prog_internal_version := 2, branch := "master", options := exOpts,
    programs := [("prog", exRec9)] }

def exSt9 : State :=
  { dbv := DBVal.db exDB9, disk := DBVal.db exDB9, diskLog := [],
    bin := [("prog", [])], bashrc := [], fishrc := [], desktopFiles := [], locked := true }

theorem pathify_idempotent_witness :
    (pathify exSt9 ("prog")).2 = "Complete"
  ∧ (pathify exSt9 ("prog")).1.bashrc.count (pathLineBash ("prog")) = 1
  ∧ (pathify exSt9 ("prog")).1.fishrc.count (pathLineFish ("prog")) = 1
  ∧ pathify (pathify exSt9 ("prog")).1 ("prog")
      = ((pathify exSt9 ("prog")).1, "Already there") :=
  pathify_idempotent exSt9 exDB9 exRec9 ("prog") rfl rfl rfl rfl rfl

/-- C7: for an ordinary (non-forced) self-update with a fetched online
version, the comparison is a strict trichotomy: strictly greater triggers
the update (the clone of the new engine runs, and succeeds into "Updated"),
strictly less yields the distinct non-error status "Newer version" (the
`NewerVersionInstalled` of the spec) with no clone, and equality yields
"No update" (`NoUpdateAvailable`) with no clone. -/
theorem update_version_trichotomy (st : State) (env : Env) (d : DB)
    (hdb : st.dbv = DBVal.db d) (hreq : env.hasRequests = true)
    (hgit : env.tools.contains ("git") = true) (hv : 0 ≤ env.onlineVersion) :
    (env.onlineVersion > d.prog_internal_version →
      (update st env false).2.2 = [Event.gitClone]
      ∧ (env.cloneExit = 0 → (update st env false).2.1 = "Updated"))
  ∧ (env.onlineVersion < d.prog_internal_version →
      update st env false = (st, "Newer version", []))
  ∧ (env.onlineVersion = d.prog_internal_version →
      update st env false = (st, "No update", [])) := by
  have h1 : ¬ env.onlineVersion = -1 := by omega
  have h2 : ¬ env.onlineVersion = -2 := by omega
  have hgitm : ("git") ∈ env.tools := by simpa using hgit
  refine ⟨?_, ?_, ?_⟩
  · intro hgt
    by_cases hc : env.cloneExit = 0
    · constructor
      · simp [update, hdb, hreq, hgit, hgitm, h1, h2, hgt, hc]
      · intro _
        simp [update, hdb, hreq, hgit, hgitm, h1, h2, hgt, hc]
    · constructor
      · simp [update, hdb, hreq, hgit, hgitm, h1, h2, hgt, hc]
      · intro hc0
        exact absurd hc0 hc
  · intro hlt
    have hngt : ¬ env.onlineVersion > d.prog_internal_version := by omega
    simp [update, hdb, hreq, hgit, hgitm, h1, h2, hngt, hlt]
  · intro heq
    have hngt : ¬ env.onlineVersion > d.prog_internal_version := by omega
    have hnlt : ¬ env.onlineVersion < d.prog_internal_version := by omega
    simp [update, hdb, hreq, hgit, hgitm, h1, h2, hngt, hnlt]

def exDB7 : DB :=
  { file_version := 17, prog_internal_version := 5, branch := "master", options := exOpts,
    programs := [] }

def exSt7 : State :=
  { dbv := DBVal.db exDB7, disk := DBVal.db exDB7, diskLog := [],
    bin := [], bashrc := [], fishrc := [], desktopFiles := [], locked := true }

def exEnv7 : Env :=
  { file_version := 17, prog_internal_version := 5, shell_file := some ("/home/user/.bashrc"),
    tools := ["git", "wget", "rsync", "tar"], hasRequests := true, missingPyDeps := false,
    tarstallExecExists := true, copyOk := true, username := "user", extracted := [],
    gitExit := 0, gitUpToDate := false, cloneExit := 0, wgetExit := 0,
    script_exists := true, scriptOSError := false, scriptExit := 0, onlineVersion := 5 }

theorem update_version_trichotomy_witness :
    ((exEnv7.onlineVersion > exDB7.prog_internal_version →
      (update exSt7 exEnv7 false).2.2 = [Event.gitClone]
      ∧ (exEnv7.cloneExit = 0 → (update exSt7 exEnv7 false).2.1 = "Updated"))
  ∧ (exEnv7.onlineVersion < exDB7.prog_internal_version →
      update exSt7 exEnv7 false = (exSt7, "Newer version", []))
  ∧ (exEnv7.onlineVersion = exDB7.prog_internal_version →
      update exSt7 exEnv7 false = (exSt7, "No update", [])))
  ∧ update exSt7 exEnv7 false = (exSt7, "No update", []) :=
  ⟨update_version_trichotomy exSt7 exEnv7 exDB7 rfl rfl rfl (by decide),
    (update_version_trichotomy exSt7 exEnv7 exDB7 rfl rfl rfl (by decide)).2.2 rfl⟩

def exRec4 : ProgramRecord := { defaultRecord ("default") with has_path := true }

def exDB4 : DB :=
  { file_version := 17, prog_internal_version := 2, branch := "master", options := exOpts,
    programs := [("foo", exRec4)] }

def exSt4 : State :=
  { dbv := DBVal.db exDB4, disk := DBVal.db exDB4, diskLog := [],
    bin := [("foo", [("run.sh", [], "x")])], bashrc := [pathLineBash ("foo")],
    fishrc := [pathLineFish ("foo")], desktopFiles := [], locked := true }

/-- C4 (code bug witness): `uninstall` removes the managed directory, strips
the tagged lines of the program from `~/.tarstall/.bashrc` and deletes the
manifest record in the claimed order, but it never touches
`~/.tarstall/.fishrc`: the fish PATH line written by `pathify` -- tagged for
the program -- survives the uninstall, contradicting "remove every profile
line tagged for the program from every supported shell dialect profile
file". -/
theorem uninstall_leaves_fishrc_line :
    (uninstall exSt4 ("foo")).2 = "Success"
  ∧ (uninstall exSt4 ("foo")).1.bashrc = []
  ∧ (uninstall exSt4 ("foo")).1.fishrc = [pathLineFish ("foo")]
  ∧ tagOf (pathLineFish ("foo")) = some ("foo")
  ∧ (uninstall exSt4 ("foo")).1.bin = []
  ∧ (uninstall exSt4 ("foo")).1.dbv = DBVal.db { exDB4 with programs := [] } := by
  refine ⟨rfl, ?_, rfl, ?_, rfl, rfl⟩
  · decide
  · decide

theorem binGet_binSet (bin : List (String × FDir)) (name : String) (c : FDir) :
    binGet (binSet bin name c) name = c := by
  induction bin with
  | nil => simp [binSet, binGet]
  | cons e t ih =>
    by_cases h : e.1 = name
    · simp [binSet, binGet, h]
    · simp [binSet, binGet, h, ih]

/-- The collapse rule in the order the spec states it: if the extracted tree
contains exactly one directory and nothing else, the contents of that
directory become the program directory; otherwise, if it contains a directory matching
the program name, the contents of that directory do; otherwise the extracted tree
is used as-is. -/
def spec_collapse (extracted : FDir) (name : String) : FDir :=
  match singleTop extracted with
  | some d =>
    if isDirTop extracted d then subdirContents extracted d
    else if isDirTop extracted name then subdirContents extracted name
    else extracted
  | Option.none =>
    if isDirTop extracted name then subdirContents extracted name
    else extracted

theorem singleTop_top (dir : FDir) (d : String) (h : singleTop dir = some d) :
    ∀ e ∈ dir, e.1 = d := by
  match dir with
  | [] => simp [singleTop] at h
  | e :: t =>
    by_cases ha : t.all (fun x => x.1 == e.1)
    · simp only [singleTop, ha, if_pos, Option.some.injEq] at h
      subst h
      intro x hx
      rcases List.mem_cons.1 hx with rfl | hx'
      · rfl
      · have hx2 := List.all_eq_true.1 ha x hx'
        simpa using hx2
    · simp [singleTop, ha] at h

theorem isDirTop_exists (dir : FDir) (name : String) (h : isDirTop dir name = true) :
    ∃ e ∈ dir, e.1 = name := by
  unfold isDirTop at h
  obtain ⟨e, he, hcond⟩ := List.any_eq_true.1 h
  refine ⟨e, he, ?_⟩
  have h2 : (e.1 == name) = true := by
    rw [Bool.and_eq_true] at hcond
    exact hcond.1
  simpa using h2

/-- The source-selection of `install` agrees with the collapse rule of the spec. -/
theorem sourceOf_eq_spec_collapse (extracted : FDir) (name : String) :
    sourceOf extracted name = spec_collapse extracted name := by
  cases hst : singleTop extracted with
  | none => simp [sourceOf, spec_collapse, hst]
  | some d =>
    by_cases hn : isDirTop extracted name
    · by_cases hd : isDirTop extracted d
      · have hname : name = d := by
          obtain ⟨e, he, h1⟩ := isDirTop_exists extracted name hn
          have h2 := singleTop_top extracted d hst e he
          rw [← h1, h2]
        subst hname
        simp [sourceOf, spec_collapse, hst, hn]
      · simp [sourceOf, spec_collapse, hst, hn, hd]
    · by_cases hd : isDirTop extracted d
      · simp [sourceOf, spec_collapse, hst, hn, hd]
      · simp [sourceOf, spec_collapse, hst, hn, hd]

/-- C8: a fresh archive install collapses a single redundant top-level
directory exactly per the rule of the spec (`spec_collapse`): the chosen
contents of the chosen directory become the managed program directory rather than being
nested one level deeper, and otherwise the extracted tree is used as-is. -/
theorem install_collapses_nesting (st : State) (env : Env) (d : DB) (program : String)
    (hdb : st.dbv = DBVal.db d)
    (hcmd : ¬ (strStartsWith (create_command (config_extension program) program env.tools) ("No") = true
              ∨ create_command (config_extension program) program env.tools = "Bad Filetype"))
    (hname : char_check (config_name program) = false) :
    (install st env program false false).2 = "Installed"
  ∧ binGet (install st env program false false).1.bin (config_name program)
      = spec_collapse env.extracted (config_name program) := by
  rw [← sourceOf_eq_spec_collapse]
  simp [install, hname, hcmd, finish_install, hdb, write_db, binGet_binSet]

def exEnv8 : Env :=
  { file_version := 17, prog_internal_version := 2, shell_file := some ("/home/user/.bashrc"),
    tools := ["git", "wget", "rsync", "tar"], hasRequests := true, missingPyDeps := false,
    tarstallExecExists := true, copyOk := true, username := "user",
    extracted := [("sample", ["run.sh"], "echo hi"), ("sample", ["doc.txt"], "d")],
    gitExit := 0, gitUpToDate := false, cloneExit := 0, wgetExit := 0,
    script_exists := true, scriptOSError := false, scriptExit := 0, onlineVersion := 2 }

def exDB8 : DB :=
  { file_version := 17, prog_internal_version := 2, branch := "master", options := exOpts,
    programs := [] }

def exSt8 : State :=
  { dbv := DBVal.db exDB8, disk := DBVal.db exDB8, diskLog := [],
    bin := [], bashrc := [], fishrc := [], desktopFiles := [], locked := true }

theorem install_collapses_nesting_witness :
    (install exSt8 exEnv8 ("/tmp/sample.tar.gz") false false).2 = "Installed"
  ∧ binGet (install exSt8 exEnv8 ("/tmp/sample.tar.gz") false false).1.bin
      (config_name ("/tmp/sample.tar.gz"))
      = spec_collapse exEnv8.extracted (config_name ("/tmp/sample.tar.gz")) :=
  install_collapses_nesting exSt8 exEnv8 exDB8 ("/tmp/sample.tar.gz") rfl (by decide) (by decide)

/-- C3: the tri-state overwrite decision table of `pre_install` on a name
collision.  `overwrite` unset aborts with "Application exists" (`AlreadyExists` in the spec) and mutates nothing; `overwrite = false` fully uninstalls
the existing record and performs a fresh install under the same name
(default record, fresh directory, old tagged bashrc lines gone);
`overwrite = true` rsync-merges the new content over the existing directory
while the manifest -- including binlinks, `has_path` and desktop entries --
is left completely untouched. -/
theorem pre_install_overwrite_table (st : State) (env : Env) (d : DB) (r : ProgramRecord)
    (program : String) (hdb : st.dbv = DBVal.db d)
    (hr : d.getProg (config_name program) = some r)
    (hrsync : env.tools.contains ("rsync") = true)
    (hcmd : ¬ (strStartsWith (create_command (config_extension program) program env.tools) ("No") = true
              ∨ create_command (config_extension program) program env.tools = "Bad Filetype"))
    (hname : char_check (config_name program) = false) :
    pre_install st env program true Option.none = (st, "Application exists")
  ∧ ((pre_install st env program true (some true)).2 = "Installed"
      ∧ (pre_install st env program true (some true)).1.dbv = st.dbv
      ∧ binGet (pre_install st env program true (some true)).1.bin (config_name program)
          = mergeFS (binGet st.bin (config_name program))
              (sourceOf env.extracted (config_name program)))
  ∧ ((pre_install st env program true (some false)).2 = "Installed"
      ∧ (pre_install st env program true (some false)).1.dbv
          = DBVal.db (DB.setProg
              { d with programs := d.programs.filter (fun e => e.1 != config_name program) }
              (config_name program) (defaultRecord ("default")))
      ∧ (DB.setProg { d with programs := d.programs.filter (fun e => e.1 != config_name program) }
              (config_name program) (defaultRecord ("default"))).getProg (config_name program)
          = some (defaultRecord ("default"))
      ∧ binGet (pre_install st env program true (some false)).1.bin (config_name program)
          = sourceOf env.extracted (config_name program)
      ∧ (pre_install st env program true (some false)).1.bashrc
          = remove_line_poundword st.bashrc (config_name program)) := by
  have hhas : d.hasProg (config_name program) = true := by
    unfold DB.getProg at hr
    unfold DB.hasProg
    simp [hr]
  have hrsyncm : ("rsync") ∈ env.tools := by simpa using hrsync
  refine ⟨?_, ⟨?_, ?_, ?_⟩, ?_, ?_, ?_, ?_, ?_⟩
  · simp [pre_install, hdb, hhas]
  · simp [pre_install, hdb, hhas, install, hrsync, hrsyncm, hname, hcmd]
  · simp [pre_install, hdb, hhas, install, hrsync, hrsyncm, hname, hcmd]
  · simp [pre_install, hdb, hhas, install, hrsync, hrsyncm, hname, hcmd, binGet_binSet]
  · simp [pre_install, hdb, hhas, install, hrsync, hrsyncm, hname, hcmd, uninstall, hdb,
      finish_install, write_db]
  · simp [pre_install, hdb, hhas, install, hrsync, hrsyncm, hname, hcmd, uninstall,
      finish_install, write_db, binDel, DB.setProg]
  · simp [DB.getProg, DB.setProg, progLookup_progSet_self]
  · simp [pre_install, hdb, hhas, install, hrsync, hrsyncm, hname, hcmd, uninstall,
      finish_install, write_db, binDel, binGet_binSet]
  · simp [pre_install, hdb, hhas, install, hrsync, hrsyncm, hname, hcmd, uninstall,
      finish_install, write_db]

def exRec3 : ProgramRecord :=
  { defaultRecord ("default") with
      has_path := true
      binlinks := ["sapp"]
      desktops := ["app-sample"] }

def exDB3 : DB :=
  { file_version := 17, prog_internal_version := 2, branch := "master", options := exOpts,
    programs := [("sample", exRec3)] }

def exSt3 : State :=
  { dbv := DBVal.db exDB3, disk := DBVal.db exDB3, diskLog := [],
    bin := [("sample", [("old.txt", [], "old")])], bashrc := [pathLineBash ("sample")],
    fishrc := [pathLineFish ("sample")], desktopFiles := ["app-sample"], locked := true }

theorem pre_install_overwrite_table_witness :
    pre_install exSt3 exEnv8 ("/tmp/sample.tar.gz") true Option.none
      = (exSt3, "Application exists")
  ∧ ((pre_install exSt3 exEnv8 ("/tmp/sample.tar.gz") true (some true)).2 = "Installed"
      ∧ (pre_install exSt3 exEnv8 ("/tmp/sample.tar.gz") true (some true)).1.dbv = exSt3.dbv
      ∧ binGet (pre_install exSt3 exEnv8 ("/tmp/sample.tar.gz") true (some true)).1.bin
          (config_name ("/tmp/sample.tar.gz"))
          = mergeFS (binGet exSt3.bin (config_name ("/tmp/sample.tar.gz")))
              (sourceOf exEnv8.extracted (config_name ("/tmp/sample.tar.gz"))))
  ∧ ((pre_install exSt3 exEnv8 ("/tmp/sample.tar.gz") true (some false)).2 = "Installed"
      ∧ (pre_install exSt3 exEnv8 ("/tmp/sample.tar.gz") true (some false)).1.dbv
          = DBVal.db (DB.setProg
              { exDB3 with programs := exDB3.programs.filter (fun e => e.1 != config_name ("/tmp/sample.tar.gz")) }
              (config_name ("/tmp/sample.tar.gz")) (defaultRecord ("default")))
      ∧ (DB.setProg { exDB3 with programs := exDB3.programs.filter (fun e => e.1 != config_name ("/tmp/sample.tar.gz")) }
              (config_name ("/tmp/sample.tar.gz")) (defaultRecord ("default"))).getProg
              (config_name ("/tmp/sample.tar.gz"))
          = some (defaultRecord ("default"))
      ∧ binGet (pre_install exSt3 exEnv8 ("/tmp/sample.tar.gz") true (some false)).1.bin
          (config_name ("/tmp/sample.tar.gz"))
          = sourceOf exEnv8.extracted (config_name ("/tmp/sample.tar.gz"))
      ∧ (pre_install exSt3 exEnv8 ("/tmp/sample.tar.gz") true (some false)).1.bashrc
          = remove_line_poundword exSt3.bashrc (config_name ("/tmp/sample.tar.gz"))) :=
  pre_install_overwrite_table exSt3 exEnv8 exDB3 exRec3 ("/tmp/sample.tar.gz")
    rfl (by decide) rfl (by decide) (by decide)

def exRec2 : ProgramRecord := { defaultRecord ("default") with desktops := ["prog-prog"] }

def exDB2 : DB :=
  { file_version := 17, prog_internal_version := 2, branch := "beta", options := exOpts,
    programs := [("prog", exRec2)] }

def exSt2 : State :=
  { dbv := DBVal.db exDB2, disk := DBVal.db exDB2, diskLog := [],
    bin := [("prog", [("f", [], "x")])], bashrc := [], fishrc := [],
    desktopFiles := ["prog-prog"], locked := true }

def exEnv2 : Env :=
  { file_version := 17, prog_internal_version := 2, shell_file := some ("/home/user/.bashrc"),
    tools := ["git", "wget", "rsync", "tar"], hasRequests := true, missingPyDeps := false,
    tarstallExecExists := true, copyOk := true, username := "user", extracted := [],
    gitExit := 0, gitUpToDate := false, cloneExit := 0, wgetExit := 0,
    script_exists := true, scriptOSError := false, scriptExit := 0, onlineVersion := 2 }

/-- C2 (counterexample): `change_branch` to master with reset requested does
NOT defer all of the destructive reset: in the very same invocation it
deletes the recorded desktop entries (and forces a self-update) before
writing the sentinel -- here the desktop file "prog-prog" present before the
call is gone afterwards, refuting "performs none of the destructive reset in
that same invocation". -/
theorem change_branch_reset_counterexample :
    exSt2.desktopFiles = ["prog-prog"]
  ∧ (change_branch exSt2 exEnv2 ("master") true).1.desktopFiles = ([] : List String)
  ∧ (change_branch exSt2 exEnv2 ("master") true).2 = "Reset" := by
  refine ⟨rfl, ?_, rfl⟩
  decide

/-- C2 (amended): `change_branch(master, reset)` writes the sentinel
manifest, persists it, and releases the lock in the same invocation while
leaving the managed tree untouched -- but it first forces a self-update and
deletes the desktop entries of the programs, so only the manifest rebuild and the
managed-tree wipe are deferred.  On the next startup the sentinel is
detected: regardless of everything else in the state, the load installs a
fresh default manifest and an empty managed program tree. -/
theorem change_branch_reset_two_phase (st st' : State) (env env' : Env) (d : DB)
    (hdb : st.dbv = DBVal.db d) (hgit : env.tools.contains ("git") = true)
    (hsent : st'.dbv = DBVal.refreshSentinel) (hlock : st'.locked = false) :
    ((change_branch st env ("master") true).1.dbv = DBVal.refreshSentinel
      ∧ (change_branch st env ("master") true).1.disk = DBVal.refreshSentinel
      ∧ (change_branch st env ("master") true).1.locked = false
      ∧ (change_branch st env ("master") true).1.bin = st.bin
      ∧ (change_branch st env ("master") true).2 = "Reset")
  ∧ ((tarstall_startup st' env' false false false).1.dbv = DBVal.db (get_default_db env')
      ∧ (tarstall_startup st' env' false false false).1.bin = ([] : List (String × FDir))) := by
  have hgitm : ("git") ∈ env.tools := by simpa using hgit
  constructor
  · by_cases hclone : env.cloneExit = 0
    · simp [change_branch, hdb, hgitm, update, write_db, hclone]
    · simp [change_branch, hdb, hgitm, update, write_db, hclone]
  · have hloop : migration_loop env'.file_version (get_default_db env')
        = (get_default_db env', []) := by
      apply migration_loop_stop
      simp [get_default_db]
    by_cases hexec : env'.tarstallExecExists
    · by_cases hold : (get_default_db env').prog_internal_version = 1
      · simp [tarstall_startup, hsent, hlock, hexec, hold, hloop, write_db]
      · by_cases hroot : env'.username = "root"
        · have hauto : (get_default_db env').options.AutoInstall = false := rfl
          simp [tarstall_startup, hsent, hlock, hexec, hold, hroot, hloop, hauto, write_db]
        · have hauto : (get_default_db env').options.AutoInstall = false := rfl
          simp [tarstall_startup, hsent, hlock, hexec, hold, hroot, hloop, hauto, write_db]
    · simp [tarstall_startup, hsent, hlock, hexec, write_db]

def exSt2b : State :=
  { dbv := DBVal.refreshSentinel, disk := DBVal.refreshSentinel, diskLog := [],
    bin := [("prog", [("f", [], "x")])], bashrc := [], fishrc := [],
    desktopFiles := [], locked := false }

theorem change_branch_reset_two_phase_witness :
    ((change_branch exSt2 exEnv2 ("master") true).1.dbv = DBVal.refreshSentinel
      ∧ (change_branch exSt2 exEnv2 ("master") true).1.disk = DBVal.refreshSentinel
      ∧ (change_branch exSt2 exEnv2 ("master") true).1.locked = false
      ∧ (change_branch exSt2 exEnv2 ("master") true).1.bin = exSt2.bin
      ∧ (change_branch exSt2 exEnv2 ("master") true).2 = "Reset")
  ∧ ((tarstall_startup exSt2b exEnv2 false false false).1.dbv
        = DBVal.db (get_default_db exEnv2)
      ∧ (tarstall_startup exSt2b exEnv2 false false false).1.bin
        = ([] : List (String × FDir))) :=
  change_branch_reset_two_phase exSt2 exSt2b exEnv2 exEnv2 exDB2 rfl rfl rfl rfl

def exRec6 : ProgramRecord :=
  { defaultRecord ("git") with update_url := some ("https://example.com/p.tar.gz") }

def exDB6 : DB :=
  { file_version := 17, prog_internal_version := 2, branch := "master", options := exOpts,
    programs := [("p", exRec6)] }

def exSt6 : State :=
  { dbv := DBVal.db exDB6, disk := DBVal.db exDB6, diskLog := [],
    bin := [("p", [])], bashrc := [], fishrc := [], desktopFiles := [], locked := true }

def exEnv6 : Env :=
  { file_version := 17, prog_internal_version := 2, shell_file := some ("/home/user/.bashrc"),
    tools := ["git", "wget", "rsync", "tar"], hasRequests := true, missingPyDeps := false,
    tarstallExecExists := true, copyOk := true, username := "user", extracted := [],
    gitExit := 0, gitUpToDate := false, cloneExit := 0, wgetExit := 0,
    script_exists := true, scriptOSError := false, scriptExit := 0, onlineVersion := 2 }

/-- C6 (counterexample): for a git-installed program that also has a
recorded archive `update_url`, `update_program` runs only the git pull and
never the archive fetch -- the sources override rather than compose, even
though both are applicable and the run terminates normally. -/
theorem update_program_sources_counterexample :
    exRec6.install_type = "git"
  ∧ exRec6.update_url.isSome = true
  ∧ (update_program exSt6 exEnv6 ("p")).2.1 = "Success"
  ∧ ¬ (Event.wgetFetch ∈ (update_program exSt6 exEnv6 ("p")).2.2) := by
  decide

theorem update_git_program_shape (env : Env) :
    update_git_program env = ("No git", [])
  ∨ (update_git_program env).2 = [Event.gitPull]
    ∧ ((update_git_program env).1 = "Error updating"
      ∨ (update_git_program env).1 = "No update"
      ∨ (update_git_program env).1 = "Success") := by
  unfold update_git_program
  by_cases h1 : env.tools.contains ("git")
  · have h1m : ("git") ∈ env.tools := by simpa using h1
    by_cases h2 : env.gitExit = 0
    · by_cases h3 : env.gitUpToDate
      · right; simp [h1, h1m, h2, h3]
      · right; simp [h1, h1m, h2, h3]
    · right; simp [h1, h1m, h2]
  · have h1m : ¬ (("git") ∈ env.tools) := by simpa using h1
    left
    simp [h1, h1m]

theorem wget_program_shape (st : State) (env : Env) (program : String) :
    (wget_program st env program).2.2 = [] ∧ (wget_program st env program).2.1 = "No wget"
  ∨ (wget_program st env program).2.2 = [Event.wgetFetch]
    ∧ ((wget_program st env program).2.1 = "Wget error"
      ∨ (wget_program st env program).2.1 = "Install error"
      ∨ (wget_program st env program).2.1 = "Success") := by
  unfold wget_program
  by_cases h1 : env.tools.contains ("wget")
  · have h1m : ("wget") ∈ env.tools := by simpa using h1
    by_cases h2 : env.wgetExit = 0
    · by_cases h3 : (pre_install st env ("/tmp/tarstall-temp2/" ++ program ++ ".tar.gz") true (some true)).2 = "Installed"
      · right; simp [h1, h1m, h2, h3]
      · right; simp [h1, h1m, h2, h3]
    · right; simp [h1, h1m, h2]
  · have h1m : ¬ (("wget") ∈ env.tools) := by simpa using h1
    left
    simp [h1, h1m]

theorem run_post_script_shape (st : State) (env : Env) (evs : List Event) :
    (run_post_script st env evs).2.2 = evs ++ [Event.runScript]
  ∧ ((run_post_script st env evs).2.1 = "OSError"
    ∨ (run_post_script st env evs).2.1 = "Script error"
    ∨ (run_post_script st env evs).2.1 = "Success") := by
  unfold run_post_script
  by_cases h1 : env.scriptOSError
  · simp [h1]
  · by_cases h2 : env.scriptExit = 0
    · simp [h1, h2]
    · simp [h1, h2]

/-- C6 (amended): `update_program` runs at most one fetch source -- the git
remote when `install_type` is git (a recorded archive `update_url` is then
ignored rather than composed), otherwise the archive URL when recorded --
and the post-upgrade script runs last, only after a successful fetch.  Its
failure statuses ("Script error"/"OSError") are distinct from the fetch
failure statuses ("Wget error"/"Error updating"), after which the script
never ran; and a program with no applicable source ends in the normal
terminal status "Does not update" with nothing executed and no mutation. -/
theorem update_program_sources (st : State) (env : Env) (d : DB) (r : ProgramRecord)
    (program : String) (hdb : st.dbv = DBVal.db d) (hr : d.getProg program = some r) :
    ((update_program st env program).2.2 ∈
      ([[], [Event.gitPull], [Event.wgetFetch], [Event.gitPull, Event.runScript],
        [Event.wgetFetch, Event.runScript], [Event.runScript]] : List (List Event)))
  ∧ (r.install_type = "git" → Event.wgetFetch ∉ (update_program st env program).2.2)
  ∧ ((update_program st env program).2.1 = "Script error" →
      (update_program st env program).2.2.getLast? = some Event.runScript)
  ∧ (((update_program st env program).2.1 = "Wget error"
      ∨ (update_program st env program).2.1 = "Error updating") →
      Event.runScript ∉ (update_program st env program).2.2)
  ∧ (r.install_type ≠ "git" → r.update_url = Option.none →
      r.post_upgrade_script = Option.none →
      update_program st env program = (st, "Does not update", [])) := by
  rcases hps : r.post_upgrade_script with _ | s
  · by_cases hgitT : r.install_type = "git"
    · rcases update_git_program_shape env with hng | ⟨hgt, hgs⟩
      · simp [update_program, hdb, hr, hps, hgitT, hng]
      · rcases hgs with h | h | h
        · simp [update_program, hdb, hr, hps, hgitT, hgt, h]
        · simp [update_program, hdb, hr, hps, hgitT, hgt, h]
        · simp [update_program, hdb, hr, hps, hgitT, hgt, h]
    · rcases hurl : r.update_url with _ | url
      · simp [update_program, hdb, hr, hps, hgitT, hurl]
      · rcases wget_program_shape st env program with ⟨ht, hs⟩ | ⟨ht, hs⟩
        · simp [update_program, hdb, hr, hps, hgitT, hurl, ht, hs]
        · rcases hs with h | h | h
          · simp [update_program, hdb, hr, hps, hgitT, hurl, ht, h]
          · simp [update_program, hdb, hr, hps, hgitT, hurl, ht, h]
          · simp [update_program, hdb, hr, hps, hgitT, hurl, ht, h]
  · by_cases hse : env.script_exists
    · by_cases hgitT : r.install_type = "git"
      · rcases update_git_program_shape env with hng | ⟨hgt, hgs⟩
        · simp [update_program, hdb, hr, hps, hse, hgitT, hng]
        · rcases hgs with h | h | h
          · simp [update_program, hdb, hr, hps, hse, hgitT, hgt, h]
          · simp [update_program, hdb, hr, hps, hse, hgitT, hgt, h]
          · obtain ⟨hrt, hrs⟩ := run_post_script_shape st env [Event.gitPull]
            rcases hrs with h2 | h2 | h2
            · simp [update_program, hdb, hr, hps, hse, hgitT, hgt, h, hrt, h2]
            · simp [update_program, hdb, hr, hps, hse, hgitT, hgt, h, hrt, h2]
            · simp [update_program, hdb, hr, hps, hse, hgitT, hgt, h, hrt, h2]
      · rcases hurl : r.update_url with _ | url
        · obtain ⟨hrt, hrs⟩ := run_post_script_shape st env []
          rcases hrs with h2 | h2 | h2
          · simp [update_program, hdb, hr, hps, hse, hgitT, hurl, hrt, h2]
          · simp [update_program, hdb, hr, hps, hse, hgitT, hurl, hrt, h2]
          · simp [update_program, hdb, hr, hps, hse, hgitT, hurl, hrt, h2]
        · rcases wget_program_shape st env program with ⟨ht, hs⟩ | ⟨ht, hs⟩
          · simp [update_program, hdb, hr, hps, hse, hgitT, hurl, ht, hs]
          · rcases hs with h | h | h
            · simp [update_program, hdb, hr, hps, hse, hgitT, hurl, ht, h]
            · simp [update_program, hdb, hr, hps, hse, hgitT, hurl, ht, h]
            · obtain ⟨hrt, hrs⟩ :=
                run_post_script_shape (wget_program st env program).1 env [Event.wgetFetch]
              rcases hrs with h2 | h2 | h2
              · simp [update_program, hdb, hr, hps, hse, hgitT, hurl, ht, h, hrt, h2]
              · simp [update_program, hdb, hr, hps, hse, hgitT, hurl, ht, h, hrt, h2]
              · simp [update_program, hdb, hr, hps, hse, hgitT, hurl, ht, h, hrt, h2]
    · simp [update_program, hdb, hr, hps, hse]

theorem update_program_sources_witness :
    ((update_program exSt6 exEnv6 ("p")).2.2 ∈
      ([[], [Event.gitPull], [Event.wgetFetch], [Event.gitPull, Event.runScript],
        [Event.wgetFetch, Event.runScript], [Event.runScript]] : List (List Event)))
  ∧ (exRec6.install_type = "git" →
      Event.wgetFetch ∉ (update_program exSt6 exEnv6 ("p")).2.2)
  ∧ ((update_program exSt6 exEnv6 ("p")).2.1 = "Script error" →
      (update_program exSt6 exEnv6 ("p")).2.2.getLast? = some Event.runScript)
  ∧ (((update_program exSt6 exEnv6 ("p")).2.1 = "Wget error"
      ∨ (update_program exSt6 exEnv6 ("p")).2.1 = "Error updating") →
      Event.runScript ∉ (update_program exSt6 exEnv6 ("p")).2.2)
  ∧ (exRec6.install_type ≠ "git" → exRec6.update_url = Option.none →
      exRec6.post_upgrade_script = Option.none →
      update_program exSt6 exEnv6 ("p") = (exSt6, "Does not update", [])) :=
  update_program_sources exSt6 exEnv6 exDB6 exRec6 ("p") rfl rfl
